import Mathlib

/-!
Verification of the MoBI-Markers marker-dispatch channel.

The definitions below are a shallow embedding of
`src/mobi_marker/lsl_stream.py` (the `LSLStreamThread` class and its two
formatting helpers) and the channel-facing parts of `src/mobi_marker/gui.py`
(`closeEvent`, `send_end_modality_marker`).

Modelling conventions:
* Machine-level effects (signal emissions, network pushes) are recorded in
  explicit logs inside `SysState`.
* Nondeterminism of the environment (whether `StreamOutlet` construction
  raises, whether `push_sample` raises, whether the thread exits within the
  3000 ms grace period, the clock values) is passed in as parameters of the
  corresponding actions.
* The monotonic LSL clock is modelled at millisecond resolution as a natural
  number; the wall clock as a date-time prefix string plus a microsecond
  count (the `%f` field of `strftime`).
-/

namespace MobiMarker

/-- Static stream metadata, mirroring the `pylsl.StreamInfo` constructor
arguments used in `run`. -/
structure StreamInfo where
  name : String
  type : String
  channel_count : Nat
  nominal_srate : Nat
  channel_format : String
  source_id : String
  deriving DecidableEq, Repr

/-- The sending handle (`pylsl.StreamOutlet`): the live resource able to push
one sample onto the network.  It is bound to the stream metadata it was
created from. -/
structure StreamOutlet where
  info : StreamInfo
  deriving DecidableEq, Repr

/-- The `StreamInfo` literal constructed in `LSLStreamThread.run`. -/
def mobiStreamInfo : StreamInfo :=
  { name := "MobiMarkerStream"
    type := "Markers"
    channel_count := 1
    nominal_srate := 0
    channel_format := "string"
    source_id := "mobi_marker_gui_v1" }

/-- Lifecycle phase of the worker thread.

`created`: the thread object exists but `run` has not executed;
`running`: `run` succeeded and the worker sits in its `exec()` event loop;
`failed`: `run` took the exception path and returned (no event loop);
`finishedOk`: the event loop exited after `quit()` and the thread finished;
`terminated`: the thread was forcibly terminated by `closeEvent`. -/
inductive Phase where
  | created
  | running
  | failed
  | finishedOk
  | terminated
  deriving DecidableEq, Repr

/-- Whether the worker thread is currently executing (QThread.isRunning). -/
def Phase.isRunning : Phase → Bool
  | .running => true
  | _ => false

/-- Whether `run` has taken its success path in this phase. -/
def Phase.startedOk : Phase → Bool
  | .created => false
  | .failed => false
  | _ => true

/-- State of one `LSLStreamThread` instance together with the observable
histories of its effects.

`outlet`, `stream_info`, `is_ready` are the fields set in
`LSLStreamThread.__init__` and mutated under `self._mutex`.
`pending` is the queue of markers emitted on the `marker_request` signal and
not yet consumed by `_handle_marker_request`.
`statusLog` records the messages of all `status_update` emissions (plus the
shutdown warning that `closeEvent` writes directly to the status display),
before timestamp formatting.
`readyLog` records the `stream_ready` emissions.
`pushLog` records the samples successfully pushed by `outlet.push_sample`.
`outletsCreated` counts how many times a `StreamOutlet` was constructed. -/
structure SysState where
  outlet : Option StreamOutlet
  stream_info : Option StreamInfo
  is_ready : Bool
  phase : Phase
  pending : List String
  statusLog : List String
  readyLog : List Bool
  pushLog : List String
  outletsCreated : Nat
  deriving DecidableEq, Repr

/-- State after `LSLStreamThread.__init__`: outlet and stream info absent, not ready,
thread not yet started, no effects observed. -/
def initState : SysState :=
  { outlet := none
    stream_info := none
    is_ready := false
    phase := .created
    pending := []
    statusLog := []
    readyLog := []
    pushLog := []
    outletsCreated := 0 }

/-- Embedding of `LSLStreamThread.run`, executed once when the thread starts.
`constructResult = none` models `StreamInfo`/`StreamOutlet` construction
succeeding; `constructResult = some cause` models the constructor raising an
exception rendered as `cause`.  On success the worker stores the descriptor
and handle, flips the readiness flag (all under the mutex), reports success,
notifies the readiness listener with `true` and enters the `exec()` event
loop.  On failure it reports the cause, notifies the readiness listener with
`false` and returns without entering the loop. -/
def run (constructResult : Option String) (s : SysState) : SysState :=
  match constructResult with
  | none =>
    { s with
      stream_info := some mobiStreamInfo
      outlet := some ⟨mobiStreamInfo⟩
      is_ready := true
      outletsCreated := s.outletsCreated + 1
      statusLog := s.statusLog ++ ["LSL stream started successfully"]
      readyLog := s.readyLog ++ [true]
      phase := .running }
  | some cause =>
    { s with
      statusLog := s.statusLog ++ ["Error starting LSL stream: " ++ cause]
      readyLog := s.readyLog ++ [false]
      phase := .failed }

/-- Embedding of `LSLStreamThread.send_marker`: under the mutex, read the readiness flag.
If it is false, emit one "LSL stream not active" status report and return
without forwarding anything.  Otherwise emit the marker on the
`marker_request` signal, queueing it for the worker. -/
def send_marker (marker : String) (s : SysState) : SysState :=
  if s.is_ready = false then
    { s with statusLog := s.statusLog ++ ["LSL stream not active"] }
  else
    { s with pending := s.pending ++ [marker] }

/-- Embedding of `LSLStreamThread._handle_marker_request`, consuming one queued marker in
the worker context.  `pushResult = none` models `push_sample` succeeding;
`pushResult = some cause` models it raising an exception rendered as `cause`.
The outlet is snapshotted under the mutex; if it is absent the defensive
"LSL stream not active" report is emitted; otherwise the sample is pushed and
the terminal success or failure report emitted. -/
def handle_marker_request (pushResult : Option String) (marker : String)
    (s : SysState) : SysState :=
  match s.outlet with
  | none =>
    { s with statusLog := s.statusLog ++ ["LSL stream not active"] }
  | some _ =>
    match pushResult with
    | none =>
      { s with
        pushLog := s.pushLog ++ [marker]
        statusLog := s.statusLog ++ ["Sent marker: " ++ marker] }
    | some cause =>
      { s with
        statusLog := s.statusLog ++ ["Error sending marker: " ++ cause] }

/-- Embedding of `MobiMarkerGUI.closeEvent`'s shutdown of the thread: `quit()` the event
loop, then `wait(3000)`.  `graceful` models whether a running worker exits
within the 3000 ms grace period.  If it does not, the warning
"Warning: LSL thread did not stop gracefully" is written to the status
display, the thread is forcibly terminated and a final unbounded `wait()`
performed.  `quit()` on a thread that is not running is a no-op and
`wait(3000)` on a finished (or never started) thread returns immediately, so
nothing happens in that case. -/
def closeEvent (graceful : Bool) (s : SysState) : SysState :=
  if s.phase.isRunning then
    if graceful then
      { s with phase := .finishedOk }
    else
      { s with
        statusLog := s.statusLog ++ ["Warning: LSL thread did not stop gracefully"]
        phase := .terminated }
  else s

/-- One externally triggered step of the system.

`runThread r`: the started thread executes `run` with construction outcome
`r`; the GUI starts the thread exactly once (`start_lsl_stream`), so the
action only fires from the `created` phase.
`submit m`: any caller invokes `send_marker m`.
`deliver r`: the worker's event loop consumes the next queued marker with
push outcome `r`; it only fires while the event loop is running and a marker
is queued.
`close g`: the GUI runs `closeEvent`'s shutdown sequence, `g` telling whether
a running worker exits within the grace period. -/
inductive Act where
  | runThread (constructResult : Option String)
  | submit (marker : String)
  | deliver (pushResult : Option String)
  | close (graceful : Bool)
  deriving DecidableEq, Repr

/-- The transition function of the channel. -/
def step : Act → SysState → SysState
  | .runThread r, s =>
    if s.phase = .created then run r s else s
  | .submit m, s => send_marker m s
  | .deliver r, s =>
    if s.phase = .running then
      match s.pending with
      | [] => s
      | m :: rest => handle_marker_request r m { s with pending := rest }
    else s
  | .close g, s => closeEvent g s

/-- Execute a list of actions in order. -/
def exec (acts : List Act) (s : SysState) : SysState :=
  acts.foldl (fun t a => step a t) s

/-- The states the channel can actually be in. -/
def Reachable (s : SysState) : Prop :=
  ∃ acts : List Act, exec acts initState = s

/-- The terminal status report `_handle_marker_request` emits for one
consumed marker under push outcome `r`. -/
def report (marker : String) : Option String → String
  | none => "Sent marker: " ++ marker
  | some cause => "Error sending marker: " ++ cause

/-- The terminal reports for a batch of consumed markers, in consumption
order. -/
def reportsFor (markers : List String) (results : List (Option String)) :
    List String :=
  List.zipWith report markers results

/-- The markers whose push succeeded, in consumption order. -/
def sentFor : List String → List (Option String) → List String
  | m :: ms, none :: rs => m :: sentFor ms rs
  | _ :: ms, some _ :: rs => sentFor ms rs
  | _, _ => []

/-- Submit a batch of markers in order. -/
def submitAll (markers : List String) (s : SysState) : SysState :=
  markers.foldl (fun t m => step (.submit m) t) s

/-- Let the worker consume queued markers, one per push outcome, in order. -/
def deliverAll (results : List (Option String)) (s : SysState) : SysState :=
  results.foldl (fun t r => step (.deliver r) t) s

/-! ### Timestamp formatting (`format_timestamp`, `format_status_message`) -/

/-- The clock values the environment supplies to one formatting call:
the `"%Y-%m-%d %H:%M:%S"` part of `datetime.now().strftime`, the microsecond
field `%f` (six digits, `micros < 1000000` in Python), and `local_clock()`
at millisecond resolution. -/
structure Clock where
  datePart : String
  micros : Nat
  lslMillis : Nat

/-- The decimal digit character of `n % 10`. -/
def digitOf (n : Nat) : Char := Char.ofNat (48 + n % 10)

/-- Value `n` rendered as exactly three zero-padded decimal digits
(of `n % 1000`). -/
def pad3 (n : Nat) : String :=
  String.mk [digitOf (n / 100), digitOf (n / 10), digitOf n]

/-- Value `n` rendered as exactly six zero-padded decimal digits (the `%f` field
of `strftime`, of `n % 1000000`). -/
def pad6 (n : Nat) : String :=
  String.mk [digitOf (n / 100000), digitOf (n / 10000), digitOf (n / 1000),
    digitOf (n / 100), digitOf (n / 10), digitOf n]

/-- Python's `s[:-3]`: drop the last three characters. -/
def dropLast3 (s : String) : String :=
  String.mk s.data.dropLast.dropLast.dropLast

/-- Rendering `f"\x7bx:.3f\x7d"` for the nonnegative monotonic clock value, modelled at
millisecond resolution: integer seconds, a dot, then exactly three decimal
digits. -/
def fixed3 (millis : Nat) : String :=
  toString (millis / 1000) ++ "." ++ pad3 millis

/-- Embedding of `format_timestamp`: the human time is
`datetime.now().strftime("%Y-%m-%d %H:%M:%S.%f")[:-3]`, the LSL time is
`local_clock()`. -/
def format_timestamp (c : Clock) : String × Nat :=
  (dropLast3 (c.datePart ++ "." ++ pad6 c.micros), c.lslMillis)

/-- Embedding of `format_status_message`:
`f"[{human_time} | LSL: {lsl_time:.3f}] {message}"`. -/
def format_status_message (c : Clock) (message : String) : String :=
  let ts := format_timestamp c
  "[" ++ ts.1 ++ " | LSL: " ++ fixed3 ts.2 ++ "] " ++ message

/-! ### GUI end-modality operation (`send_end_modality_marker`) -/

/-- The dropdown entries of `AVAILABLE_MODALITIES` in `gui.py`. -/
def AVAILABLE_MODALITIES : List String :=
  ["EEG", "fNIRS", "EMG", "EOG", "ECG", "Motion Capture", "Eye Tracking",
   "Audio", "Video", "Other"]

/-- Python's `str.strip()`: remove leading and trailing whitespace. -/
def pyStrip (t : String) : String :=
  String.mk (((t.data.dropWhile Char.isWhitespace).reverse.dropWhile
    Char.isWhitespace).reverse)

/-- Python's `str.upper()`: uppercase every character. -/
def pyUpper (t : String) : String := String.mk (t.data.map Char.toUpper)

/-- Outcome of one `send_end_modality_marker` invocation:
the marker text handed to `send_marker` (if any), the error status shown
(if any), and whether the custom-modality input field was cleared. -/
structure EndModalityResult where
  sent : Option String
  errorStatus : Option String
  inputCleared : Bool
  deriving DecidableEq, Repr

/-- Embedding of `MobiMarkerGUI.send_end_modality_marker`, as a function of the dropdown's
current text and the custom input field's text. -/
def send_end_modality_marker (modality customText : String) :
    EndModalityResult :=
  if modality = "Other" then
    let custom_modality := pyStrip customText
    if custom_modality = "" then
      { sent := none
        errorStatus := some "Error: Please enter a custom modality"
        inputCleared := false }
    else
      { sent := some ("END " ++ pyUpper custom_modality)
        errorStatus := none
        inputCleared := true }
  else
    { sent := some ("END " ++ modality)
      errorStatus := none
      inputCleared := false }

/-! ### Invariants of the channel -/

/-- The `stream_ready` emissions a phase determines: none before `run`
executes, exactly one `false` after a failed `run`, exactly one `true`
otherwise. -/
def readyLogOf : Phase → List Bool
  | .created => []
  | .failed => [false]
  | _ => [true]

/-- The state invariant of one channel instance: the readiness flag tracks
the success of `run`, the outlet and descriptor exist exactly when the flag
is set, at most one outlet was ever constructed, and the readiness listener
has been notified exactly as the phase dictates. -/
def Inv (s : SysState) : Prop :=
  s.is_ready = s.phase.startedOk ∧
  s.outlet.isSome = s.is_ready ∧
  s.stream_info.isSome = s.is_ready ∧
  s.outletsCreated = (if s.is_ready then 1 else 0) ∧
  s.readyLog = readyLogOf s.phase

theorem inv_init : Inv initState := by
  simp [Inv, initState, Phase.startedOk, readyLogOf]

/-- Lemma: `_handle_marker_request` only appends to the status and push logs: every
other field of the state is untouched. -/
theorem handle_preserves (r : Option String) (m : String) (s : SysState) :
    (handle_marker_request r m s).outlet = s.outlet ∧
    (handle_marker_request r m s).stream_info = s.stream_info ∧
    (handle_marker_request r m s).is_ready = s.is_ready ∧
    (handle_marker_request r m s).phase = s.phase ∧
    (handle_marker_request r m s).pending = s.pending ∧
    (handle_marker_request r m s).readyLog = s.readyLog ∧
    (handle_marker_request r m s).outletsCreated = s.outletsCreated := by
  unfold handle_marker_request
  cases s.outlet <;> cases r <;> simp

/-- Lemma: `Inv` only looks at the outlet, descriptor, readiness flag, phase,
readiness log and outlet count, so it transfers along states agreeing on
those fields. -/
theorem inv_of_fields {s t : SysState}
    (ho : t.outlet = s.outlet) (hsi : t.stream_info = s.stream_info)
    (hr : t.is_ready = s.is_ready) (hph : t.phase = s.phase)
    (hrl : t.readyLog = s.readyLog)
    (hoc : t.outletsCreated = s.outletsCreated)
    (h : Inv s) : Inv t := by
  obtain ⟨h1, h2, h3, h4, h5⟩ := h
  refine ⟨?_, ?_, ?_, ?_, ?_⟩
  · rw [hr, hph]; exact h1
  · rw [ho, hr]; exact h2
  · rw [hsi, hr]; exact h3
  · rw [hoc, hr]; exact h4
  · rw [hrl, hph]; exact h5

theorem inv_step (a : Act) (s : SysState) (h : Inv s) : Inv (step a s) := by
  obtain ⟨o, si, ir, ph, pe, sl, rl, pl, oc⟩ := s
  obtain ⟨h1, h2, h3, h4, h5⟩ := h
  cases a with
  | runThread r =>
    cases ph <;> cases r <;>
      simp_all [step, run, Inv, Phase.startedOk, readyLogOf]
  | submit m =>
    cases ir <;> simp_all [step, send_marker, Inv]
  | deliver r =>
    cases ph <;> cases pe <;> cases o <;> cases r <;>
      simp_all [step, handle_marker_request, Inv, Phase.startedOk, readyLogOf]
  | close g =>
    cases ph <;> cases g <;>
      simp_all [step, closeEvent, Inv, Phase.isRunning, Phase.startedOk,
        readyLogOf]

theorem inv_exec (acts : List Act) (s : SysState) (h : Inv s) :
    Inv (exec acts s) := by
  induction acts generalizing s with
  | nil => exact h
  | cons a rest ih => exact ih (step a s) (inv_step a s h)

theorem inv_reachable (s : SysState) (h : Reachable s) : Inv s := by
  obtain ⟨acts, rfl⟩ := h
  exact inv_exec acts initState inv_init

/-- No action ever clears the readiness flag: the code contains no write of
`False` to `_is_ready`. -/
theorem ready_mono (a : Act) (s : SysState) (h : s.is_ready = true) :
    (step a s).is_ready = true := by
  obtain ⟨o, si, ir, ph, pe, sl, rl, pl, oc⟩ := s
  cases a with
  | runThread r =>
    cases ph <;> cases r <;> simp_all [step, run]
  | submit m =>
    simp_all [step, send_marker]
  | deliver r =>
    cases ph <;> cases pe <;> cases o <;> cases r <;>
      simp_all [step, handle_marker_request]
  | close g =>
    cases ph <;> cases g <;> simp_all [step, closeEvent, Phase.isRunning]

/-- Once `run` has failed, no further action changes the phase or the
readiness flag: the `failed` phase is absorbing. -/
theorem failed_absorbing (a : Act) (s : SysState)
    (hp : s.phase = Phase.failed) :
    (step a s).phase = Phase.failed ∧ (step a s).is_ready = s.is_ready := by
  obtain ⟨o, si, ir, ph, pe, sl, rl, pl, oc⟩ := s
  subst hp
  cases a with
  | runThread r => cases r <;> simp [step, run]
  | submit m => cases ir <;> simp [step, send_marker]
  | deliver r => simp [step]
  | close g => cases g <;> simp [step, closeEvent, Phase.isRunning]

theorem failed_absorbing_exec (acts : List Act) (s : SysState)
    (hp : s.phase = Phase.failed) :
    (exec acts s).phase = Phase.failed ∧
      (exec acts s).is_ready = s.is_ready := by
  induction acts generalizing s with
  | nil => exact ⟨hp, rfl⟩
  | cons a rest ih =>
    obtain ⟨hp', hr'⟩ := failed_absorbing a s hp
    obtain ⟨hp'', hr''⟩ := ih (step a s) hp'
    exact ⟨hp'', hr''.trans hr'⟩

/-! ### Step lemmas for submission and delivery -/

/-- Lemma: `send_marker` on a ready channel only queues the marker. -/
theorem step_submit_ready (m : String) (s : SysState)
    (h : s.is_ready = true) :
    step (Act.submit m) s = { s with pending := s.pending ++ [m] } := by
  obtain ⟨o, si, ir, ph, pe, sl, rl, pl, oc⟩ := s
  simp_all [step, send_marker]

/-- Lemma: `send_marker` on a channel that is not ready emits exactly one
"LSL stream not active" report and queues nothing. -/
theorem step_submit_not_ready (m : String) (s : SysState)
    (h : s.is_ready = false) :
    step (Act.submit m) s =
      { s with statusLog := s.statusLog ++ ["LSL stream not active"] } := by
  obtain ⟨o, si, ir, ph, pe, sl, rl, pl, oc⟩ := s
  simp_all [step, send_marker]

/-- The markers a single successful/failed push outcome contributes to the
push log. -/
def pushOf (m : String) : Option String → List String
  | none => [m]
  | some _ => []

theorem sentFor_cons (m : String) (ms : List String) (r : Option String)
    (rs : List (Option String)) :
    sentFor (m :: ms) (r :: rs) = pushOf m r ++ sentFor ms rs := by
  cases r <;> rfl

/-- Consuming the head of a nonempty queue on a running worker with a live
outlet pops the queue, appends exactly one terminal report, and records the
push when it succeeded. -/
theorem step_deliver_cons (r : Option String) (m : String)
    (rest : List String) (o : StreamOutlet) (s : SysState)
    (hph : s.phase = Phase.running) (ho : s.outlet = some o)
    (hpend : s.pending = m :: rest) :
    step (Act.deliver r) s =
      { s with
        pending := rest
        statusLog := s.statusLog ++ [report m r]
        pushLog := s.pushLog ++ pushOf m r } := by
  obtain ⟨o', si, ir, ph, pe, sl, rl, pl, oc⟩ := s
  simp only at hph ho hpend
  subst hph ho hpend
  cases r <;> simp [step, handle_marker_request, report, pushOf]

/-- Submitting a batch of markers while ready appends them, in order, to the
queue and changes nothing else. -/
theorem submitAll_ready (ms : List String) (s : SysState)
    (h : s.is_ready = true) :
    submitAll ms s = { s with pending := s.pending ++ ms } := by
  induction ms generalizing s with
  | nil => simp [submitAll]
  | cons m ms ih =>
    have hh : submitAll (m :: ms) s = submitAll ms (step (Act.submit m) s) :=
      rfl
    rw [hh, step_submit_ready m s h,
      ih { s with pending := s.pending ++ [m] } h]
    simp [List.append_assoc]

/-- Draining a queue of `n` markers with `n` push outcomes on a running
worker appends exactly the `n` terminal reports in queue order, records
exactly the successful pushes in order, and leaves the channel running and
ready with an empty queue. -/
theorem deliverAll_spec (ms : List String) (rs : List (Option String))
    (o : StreamOutlet) (s : SysState) (hph : s.phase = Phase.running)
    (ho : s.outlet = some o) (hpend : s.pending = ms)
    (hlen : rs.length = ms.length) :
    (deliverAll rs s).statusLog = s.statusLog ++ reportsFor ms rs ∧
    (deliverAll rs s).pushLog = s.pushLog ++ sentFor ms rs ∧
    (deliverAll rs s).pending = [] ∧
    (deliverAll rs s).phase = Phase.running ∧
    (deliverAll rs s).outlet = some o ∧
    (deliverAll rs s).is_ready = s.is_ready := by
  induction ms generalizing rs s with
  | nil =>
    obtain rfl : rs = [] := List.length_eq_zero.mp (by simpa using hlen)
    simp [deliverAll, reportsFor, sentFor, hpend, hph, ho]
  | cons m ms ih =>
    cases rs with
    | nil => simp at hlen
    | cons r rs =>
      have hh : deliverAll (r :: rs) s
          = deliverAll rs (step (Act.deliver r) s) := rfl
      rw [hh, step_deliver_cons r m ms o s hph ho hpend]
      obtain ⟨a1, a2, a3, a4, a5, a6⟩ :=
        ih rs
          { s with
            pending := ms
            statusLog := s.statusLog ++ [report m r]
            pushLog := s.pushLog ++ pushOf m r }
          hph ho rfl (by simpa using hlen)
      refine ⟨?_, ?_, a3, a4, a5, a6⟩
      · rw [a1]; simp [reportsFor, List.append_assoc]
      · rw [a2]; simp [sentFor_cons, List.append_assoc]

/-- Lemma: `run` on construction success, from the not-yet-started phase. -/
theorem step_run_ok (s : SysState) (hph : s.phase = Phase.created) :
    step (Act.runThread none) s =
      { s with
        stream_info := some mobiStreamInfo
        outlet := some ⟨mobiStreamInfo⟩
        is_ready := true
        outletsCreated := s.outletsCreated + 1
        statusLog := s.statusLog ++ ["LSL stream started successfully"]
        readyLog := s.readyLog ++ [true]
        phase := Phase.running } := by
  obtain ⟨o, si, ir, ph, pe, sl, rl, pl, oc⟩ := s
  simp only at hph
  subst hph
  simp [step, run]

/-- Lemma: `run` on construction failure, from the not-yet-started phase. -/
theorem step_run_fail (cause : String) (s : SysState)
    (hph : s.phase = Phase.created) :
    step (Act.runThread (some cause)) s =
      { s with
        statusLog := s.statusLog ++ ["Error starting LSL stream: " ++ cause]
        readyLog := s.readyLog ++ [false]
        phase := Phase.failed } := by
  obtain ⟨o, si, ir, ph, pe, sl, rl, pl, oc⟩ := s
  simp only at hph
  subst hph
  simp [step, run]

/-! ### Timestamp shape lemmas -/

theorem dropLast_three_of_six (l : List Char) (a b c d e f : Char) :
    (l ++ [a, b, c, d, e, f]).dropLast.dropLast.dropLast = l ++ [a, b, c] := by
  have h1 : (l ++ [a, b, c, d, e, f]).dropLast = l ++ [a, b, c, d, e] := by
    have h : l ++ [a, b, c, d, e, f] = (l ++ [a, b, c, d, e]) ++ [f] := by simp
    rw [h, List.dropLast_concat]
  have h2 : (l ++ [a, b, c, d, e]).dropLast = l ++ [a, b, c, d] := by
    have h : l ++ [a, b, c, d, e] = (l ++ [a, b, c, d]) ++ [e] := by simp
    rw [h, List.dropLast_concat]
  have h3 : (l ++ [a, b, c, d]).dropLast = l ++ [a, b, c] := by
    have h : l ++ [a, b, c, d] = (l ++ [a, b, c]) ++ [d] := by simp
    rw [h, List.dropLast_concat]
  rw [h1, h2, h3]

/-- Truncating the six-digit microsecond field by three characters leaves the
date-time prefix followed by the three-digit millisecond value: this is the
`[:-3]` in `format_timestamp`. -/
theorem human_time_millis (datePart : String) (m : Nat) :
    dropLast3 (datePart ++ "." ++ pad6 m)
      = datePart ++ "." ++ pad3 (m / 1000) := by
  apply String.ext
  show (datePart ++ "." ++ pad6 m).data.dropLast.dropLast.dropLast
      = (datePart ++ "." ++ pad3 (m / 1000)).data
  have h6 : (datePart ++ "." ++ pad6 m).data
      = (datePart.data ++ ['.']) ++
          [digitOf (m / 100000), digitOf (m / 10000), digitOf (m / 1000),
            digitOf (m / 100), digitOf (m / 10), digitOf m] := by
    simp [String.data_append, pad6]
  have h3 : (datePart ++ "." ++ pad3 (m / 1000)).data
      = (datePart.data ++ ['.']) ++
          [digitOf (m / 1000 / 100), digitOf (m / 1000 / 10),
            digitOf (m / 1000)] := by
    simp [String.data_append, pad3]
  rw [h6, dropLast_three_of_six, h3, Nat.div_div_eq_div_mul,
    Nat.div_div_eq_div_mul]

/-! ### Shutdown lemmas -/

/-- After `closeEvent`'s shutdown sequence the worker thread is never
running. -/
theorem close_not_running (g : Bool) (s : SysState) :
    ((step (Act.close g) s).phase).isRunning = false := by
  obtain ⟨o, si, ir, ph, pe, sl, rl, pl, oc⟩ := s
  cases ph <;> cases g <;> simp [step, closeEvent, Phase.isRunning]

/-- Lemma: `closeEvent`'s shutdown sequence does nothing when the worker thread is
not running: `quit()` is a no-op and `wait(3000)` returns immediately. -/
theorem close_noop (g : Bool) (s : SysState)
    (h : s.phase.isRunning = false) :
    step (Act.close g) s = s := by
  obtain ⟨o, si, ir, ph, pe, sl, rl, pl, oc⟩ := s
  cases ph <;> cases g <;> simp_all [step, closeEvent, Phase.isRunning]

/-! ## Claims -/

/-- A concrete reachable ready state: the channel right after a successful
`run`. -/
def readyState : SysState := exec [Act.runThread none] initState

/-- C1, counterexample.  The claim asserts that a submission made after
shutdown has completed yields exactly one "LSL stream not active" report and
queues no MarkerEvent.  On the code this fails: `closeEvent` never resets
`_is_ready`, so after a graceful shutdown `send_marker` still passes the
readiness check, emits no "not active" report at all, and forwards the
marker on `marker_request`.  Concretely: start the stream successfully, shut
down gracefully, then submit "X" — the status log still holds only the
startup message and the marker was queued. -/
theorem claim_C1_counterexample :
    (exec [Act.runThread none, Act.close true, Act.submit "X"]
        initState).phase = Phase.finishedOk ∧
    (exec [Act.runThread none, Act.close true, Act.submit "X"]
        initState).statusLog = ["LSL stream started successfully"] ∧
    (exec [Act.runThread none, Act.close true, Act.submit "X"]
        initState).pending = ["X"] :=
  ⟨rfl, rfl, rfl⟩

/-- C1 (amended): for every call to `send_marker` made while the readiness
flag is false — before a successful `run` or after a failed `run` — exactly
one "LSL stream not active" report is emitted, no MarkerEvent is queued, and
zero network pushes occur.  (After shutdown the flag is not reset, so such
submissions are still forwarded; see the counterexample.) -/
theorem claim_C1_not_ready_submission (s : SysState) (h : Reachable s)
    (hph : s.phase = Phase.created ∨ s.phase = Phase.failed) (m : String) :
    (step (Act.submit m) s).statusLog
        = s.statusLog ++ ["LSL stream not active"] ∧
    (step (Act.submit m) s).pending = s.pending ∧
    (step (Act.submit m) s).pushLog = s.pushLog := by
  obtain ⟨h1, _, _, _, _⟩ := inv_reachable s h
  have hr : s.is_ready = false := by
    rcases hph with hp | hp <;> rw [h1, hp] <;> rfl
  rw [step_submit_not_ready m s hr]
  exact ⟨rfl, rfl, rfl⟩

/-- C1, witness: submitting on the never-started channel. -/
theorem claim_C1_witness :
    (step (Act.submit "X") initState).statusLog
        = initState.statusLog ++ ["LSL stream not active"] ∧
    (step (Act.submit "X") initState).pending = initState.pending ∧
    (step (Act.submit "X") initState).pushLog = initState.pushLog :=
  claim_C1_not_ready_submission initState ⟨[], rfl⟩ (Or.inl rfl) "X"

/-- C2: a submission accepted while the channel is ready (readiness flag
true at the locked check in `send_marker`, worker running with a live
outlet, queue empty), once consumed by the worker, produces exactly one
terminal StatusReport — "Sent marker: {text}" on push success or
"Error sending marker: {cause}" on push failure — never zero and never more
than one. -/
theorem claim_C2_exactly_one_report (s : SysState) (m : String)
    (r : Option String) (o : StreamOutlet)
    (hph : s.phase = Phase.running) (hr : s.is_ready = true)
    (ho : s.outlet = some o) (hp : s.pending = []) :
    (step (Act.deliver r) (step (Act.submit m) s)).statusLog
        = s.statusLog ++ [report m r] ∧
    (step (Act.deliver r) (step (Act.submit m) s)).pending = [] ∧
    (report m r = "Sent marker: " ++ m ∨
      ∃ cause, r = some cause ∧ report m r = "Error sending marker: " ++ cause) := by
  rw [step_submit_ready m s hr,
    step_deliver_cons r m [] o { s with pending := s.pending ++ [m] } hph ho
      (by simp [hp])]
  refine ⟨rfl, rfl, ?_⟩
  cases r with
  | none => exact Or.inl rfl
  | some cause => exact Or.inr ⟨cause, rfl, rfl⟩

/-- C2, witness. -/
theorem claim_C2_witness :
    (step (Act.deliver none) (step (Act.submit "START")
        readyState)).statusLog
      = readyState.statusLog ++ [report "START" none] ∧
    (step (Act.deliver none) (step (Act.submit "START")
        readyState)).pending = [] ∧
    (report "START" none = "Sent marker: " ++ "START" ∨
      ∃ cause, (none : Option String) = some cause ∧
        report "START" none = "Error sending marker: " ++ cause) :=
  claim_C2_exactly_one_report readyState "START" none ⟨mobiStreamInfo⟩
    rfl rfl rfl rfl

/-- C3: in every reachable state of a channel instance at most one
SendingHandle was ever constructed, the readiness flag is true exactly when
the outlet is non-null, and the flag is monotonically non-decreasing: no
step of the channel ever clears it. -/
theorem claim_C3_handle_readiness_invariant (s : SysState)
    (h : Reachable s) :
    s.outletsCreated ≤ 1 ∧
    (s.is_ready = true ↔ s.outlet.isSome = true) ∧
    (∀ a : Act, s.is_ready = true → (step a s).is_ready = true) := by
  obtain ⟨_, h2, _, h4, _⟩ := inv_reachable s h
  refine ⟨?_, ?_, fun a hr => ready_mono a s hr⟩
  · rw [h4]; split <;> norm_num
  · exact ⟨fun hr => h2.trans hr, fun ho => h2.symm.trans ho⟩

/-- C3, witness. -/
theorem claim_C3_witness :
    readyState.outletsCreated ≤ 1 ∧
    (readyState.is_ready = true ↔ readyState.outlet.isSome = true) ∧
    (∀ a : Act, readyState.is_ready = true →
      (step a readyState).is_ready = true) :=
  claim_C3_handle_readiness_invariant readyState ⟨[Act.runThread none], rfl⟩

/-- C4: if construction fails during the worker's `run`, exactly one report
containing the failure cause is emitted, the readiness listener is notified
with `false` (its only notification), the worker ends in the `failed` phase
(never entering the event-wait state), and the readiness flag remains false
permanently: no continuation of the execution can set it. -/
theorem claim_C4_construction_failure (s : SysState) (cause : String)
    (h : Reachable s) (hph : s.phase = Phase.created) (acts : List Act) :
    (step (Act.runThread (some cause)) s).statusLog
        = s.statusLog ++ ["Error starting LSL stream: " ++ cause] ∧
    (step (Act.runThread (some cause)) s).readyLog = [false] ∧
    (step (Act.runThread (some cause)) s).phase = Phase.failed ∧
    (step (Act.runThread (some cause)) s).is_ready = false ∧
    (exec acts (step (Act.runThread (some cause)) s)).is_ready = false ∧
    (exec acts (step (Act.runThread (some cause)) s)).phase
        = Phase.failed := by
  obtain ⟨h1, _, _, _, h5⟩ := inv_reachable s h
  have hr : s.is_ready = false := by rw [h1, hph]; rfl
  have hrl : s.readyLog = [] := by rw [h5, hph]; rfl
  rw [step_run_fail cause s hph]
  obtain ⟨hp', hr'⟩ := failed_absorbing_exec acts
    { s with
      statusLog := s.statusLog ++ ["Error starting LSL stream: " ++ cause]
      readyLog := s.readyLog ++ [false]
      phase := Phase.failed } rfl
  refine ⟨rfl, ?_, rfl, hr, ?_, hp'⟩
  · rw [hrl]; rfl
  · rw [hr']; exact hr

/-- C4, witness. -/
theorem claim_C4_witness :
    (step (Act.runThread (some "no network interface")) initState).statusLog
        = initState.statusLog
            ++ ["Error starting LSL stream: " ++ "no network interface"] ∧
    (step (Act.runThread (some "no network interface"))
        initState).readyLog = [false] ∧
    (step (Act.runThread (some "no network interface"))
        initState).phase = Phase.failed ∧
    (step (Act.runThread (some "no network interface"))
        initState).is_ready = false ∧
    (exec [Act.submit "Y"] (step (Act.runThread (some "no network interface"))
        initState)).is_ready = false ∧
    (exec [Act.submit "Y"] (step (Act.runThread (some "no network interface"))
        initState)).phase = Phase.failed :=
  claim_C4_construction_failure initState "no network interface" ⟨[], rfl⟩
    rfl [Act.submit "Y"]

/-- C5: if the push raises for an individual marker, the worker emits one
"Error sending marker: {cause}" report, nothing reaches the push log, the
channel stays ready (flag set, worker running, same outlet), and a
subsequent submission is processed normally, yielding its own
"Sent marker" report. -/
theorem claim_C5_push_failure_nonfatal (s : SysState) (o : StreamOutlet)
    (cause m m2 : String) (hph : s.phase = Phase.running)
    (hr : s.is_ready = true) (ho : s.outlet = some o)
    (hp : s.pending = [m]) :
    (step (Act.deliver (some cause)) s).statusLog
        = s.statusLog ++ ["Error sending marker: " ++ cause] ∧
    (step (Act.deliver (some cause)) s).pushLog = s.pushLog ∧
    (step (Act.deliver (some cause)) s).is_ready = true ∧
    (step (Act.deliver (some cause)) s).phase = Phase.running ∧
    (step (Act.deliver (some cause)) s).outlet = some o ∧
    (step (Act.deliver none)
        (step (Act.submit m2) (step (Act.deliver (some cause)) s))).statusLog
      = s.statusLog ++ ["Error sending marker: " ++ cause,
          "Sent marker: " ++ m2] := by
  have e1 : step (Act.deliver (some cause)) s =
      { s with
        pending := []
        statusLog := s.statusLog ++ ["Error sending marker: " ++ cause] } := by
    rw [step_deliver_cons (some cause) m [] o s hph ho hp]
    simp [report, pushOf]
  rw [e1]
  refine ⟨rfl, rfl, hr, hph, ho, ?_⟩
  have e2 : step (Act.submit m2)
      { s with
        pending := []
        statusLog := s.statusLog ++ ["Error sending marker: " ++ cause] } =
      { s with
        pending := [m2]
        statusLog := s.statusLog ++ ["Error sending marker: " ++ cause] } := by
    rw [step_submit_ready m2
      { s with
        pending := []
        statusLog := s.statusLog ++ ["Error sending marker: " ++ cause] } hr]
    simp
  rw [e2, step_deliver_cons none m2 [] o
    { s with
      pending := [m2]
      statusLog := s.statusLog ++ ["Error sending marker: " ++ cause] }
    hph ho rfl]
  simp [report]

/-- C5, witness. -/
theorem claim_C5_witness :
    (step (Act.deliver (some "push failed"))
        (exec [Act.runThread none, Act.submit "A"] initState)).statusLog
      = (exec [Act.runThread none, Act.submit "A"] initState).statusLog
          ++ ["Error sending marker: " ++ "push failed"] ∧
    (step (Act.deliver (some "push failed"))
        (exec [Act.runThread none, Act.submit "A"] initState)).pushLog
      = (exec [Act.runThread none, Act.submit "A"] initState).pushLog ∧
    (step (Act.deliver (some "push failed"))
        (exec [Act.runThread none, Act.submit "A"] initState)).is_ready
      = true ∧
    (step (Act.deliver (some "push failed"))
        (exec [Act.runThread none, Act.submit "A"] initState)).phase
      = Phase.running ∧
    (step (Act.deliver (some "push failed"))
        (exec [Act.runThread none, Act.submit "A"] initState)).outlet
      = some ⟨mobiStreamInfo⟩ ∧
    (step (Act.deliver none) (step (Act.submit "B")
        (step (Act.deliver (some "push failed"))
          (exec [Act.runThread none, Act.submit "A"] initState)))).statusLog
      = (exec [Act.runThread none, Act.submit "A"] initState).statusLog
          ++ ["Error sending marker: " ++ "push failed",
              "Sent marker: " ++ "B"] :=
  claim_C5_push_failure_nonfatal
    (exec [Act.runThread none, Act.submit "A"] initState) ⟨mobiStreamInfo⟩
    "push failed" "A" "B" rfl rfl rfl rfl

/-- C6: every StatusReport text the channel produces is built by
`format_status_message` and has the exact form
"[{date-time with millisecond precision} | LSL: {clock value with exactly
three decimal places}] {message}": the human timestamp is the strftime
prefix followed by a dot and the three-digit millisecond value, and the
monotonic clock renders with exactly three digits after its dot. -/
theorem claim_C6_status_format (c : Clock) (msg : String) :
    format_status_message c msg
      = "[" ++ (c.datePart ++ "." ++ pad3 (c.micros / 1000)) ++ " | LSL: "
          ++ (toString (c.lslMillis / 1000) ++ "." ++ pad3 c.lslMillis)
          ++ "] " ++ msg ∧
    (pad3 (c.micros / 1000)).length = 3 ∧
    (pad3 c.lslMillis).length = 3 := by
  refine ⟨?_, rfl, rfl⟩
  show "[" ++ dropLast3 (c.datePart ++ "." ++ pad6 c.micros) ++ " | LSL: "
      ++ fixed3 c.lslMillis ++ "] " ++ msg = _
  rw [human_time_millis]
  rfl

/-- C7: for every channel instance on which the thread is started, the
readiness listener receives exactly one boolean notification — `true`
exactly when the readiness flag got set (construction succeeded), `false`
exactly when construction failed — never both and never zero; before the
thread runs it has received none. -/
theorem claim_C7_ready_notification (s : SysState) (h : Reachable s) :
    (s.phase = Phase.created ↔ s.readyLog = []) ∧
    (s.phase ≠ Phase.created → s.readyLog.length = 1) ∧
    (s.readyLog = [true] ↔ s.is_ready = true) ∧
    (s.phase = Phase.failed ↔ s.readyLog = [false]) := by
  have hinv := inv_reachable s h
  obtain ⟨o, si, ir, ph, pe, sl, rl, pl, oc⟩ := s
  obtain ⟨h1, _, _, _, h5⟩ := hinv
  simp only at h1 h5
  subst h1 h5
  cases ph <;> simp [readyLogOf, Phase.startedOk]

/-- C7, witness. -/
theorem claim_C7_witness :
    (readyState.phase = Phase.created ↔ readyState.readyLog = []) ∧
    (readyState.phase ≠ Phase.created → readyState.readyLog.length = 1) ∧
    (readyState.readyLog = [true] ↔ readyState.is_ready = true) ∧
    (readyState.phase = Phase.failed ↔ readyState.readyLog = [false]) :=
  claim_C7_ready_notification readyState ⟨[Act.runThread none], rfl⟩

/-- C8: the shutdown sequence is idempotent.  Running `closeEvent`'s
shutdown a second time, after the first has completed, changes nothing —
in particular it produces no additional forced-termination warning —
whatever the grace-period outcomes of the two calls were. -/
theorem claim_C8_shutdown_idempotent (g1 g2 : Bool) (s : SysState) :
    step (Act.close g2) (step (Act.close g1) s) = step (Act.close g1) s :=
  close_noop g2 (step (Act.close g1) s) (close_not_running g1 s)

/-- C9: for any batch of `n` markers submitted while the channel is ready
and then consumed by the single worker with `n` push outcomes, the `n`
terminal reports appear in exactly submission order — none skipped, none
duplicated — the successful pushes appear in the push log in the same
order, and the queue drains completely: no accepted marker is dropped. -/
theorem claim_C9_fifo (s : SysState) (o : StreamOutlet) (ms : List String)
    (rs : List (Option String)) (hph : s.phase = Phase.running)
    (hr : s.is_ready = true) (ho : s.outlet = some o) (hp : s.pending = [])
    (hlen : rs.length = ms.length) :
    (deliverAll rs (submitAll ms s)).statusLog
        = s.statusLog ++ reportsFor ms rs ∧
    (deliverAll rs (submitAll ms s)).pushLog
        = s.pushLog ++ sentFor ms rs ∧
    (deliverAll rs (submitAll ms s)).pending = [] ∧
    (reportsFor ms rs).length = ms.length := by
  rw [submitAll_ready ms s hr]
  obtain ⟨a1, a2, a3, _, _, _⟩ :=
    deliverAll_spec ms rs o { s with pending := s.pending ++ ms } hph ho
      (by simp [hp]) hlen
  exact ⟨a1, a2, a3, by simp [reportsFor, hlen]⟩

/-- C9, witness: two submissions, one successful push and one failed push. -/
theorem claim_C9_witness :
    (deliverAll [none, some "boom"]
        (submitAll ["A", "B"] readyState)).statusLog
      = readyState.statusLog ++ reportsFor ["A", "B"] [none, some "boom"] ∧
    (deliverAll [none, some "boom"]
        (submitAll ["A", "B"] readyState)).pushLog
      = readyState.pushLog ++ sentFor ["A", "B"] [none, some "boom"] ∧
    (deliverAll [none, some "boom"]
        (submitAll ["A", "B"] readyState)).pending = [] ∧
    (reportsFor ["A", "B"] [none, some "boom"]).length = ["A", "B"].length :=
  claim_C9_fifo readyState ⟨mobiStreamInfo⟩ ["A", "B"] [none, some "boom"]
    rfl rfl rfl rfl rfl

/-- C10: the GUI's end-modality operation sends "END {modality}" verbatim
for a listed non-Other modality; for "Other" with non-empty stripped custom
text it sends "END " followed by the stripped text uppercased and clears the
field; for "Other" with empty stripped custom text it shows the
"Error: Please enter a custom modality" status and sends nothing. -/
theorem claim_C10_end_modality (modality customText : String) :
    (modality ∈ AVAILABLE_MODALITIES → modality ≠ "Other" →
      send_end_modality_marker modality customText =
        { sent := some ("END " ++ modality)
          errorStatus := none
          inputCleared := false }) ∧
    (modality = "Other" → pyStrip customText ≠ "" →
      send_end_modality_marker modality customText =
        { sent := some ("END " ++ pyUpper (pyStrip customText))
          errorStatus := none
          inputCleared := true }) ∧
    (modality = "Other" → pyStrip customText = "" →
      send_end_modality_marker modality customText =
        { sent := none
          errorStatus := some "Error: Please enter a custom modality"
          inputCleared := false }) := by
  refine ⟨?_, ?_, ?_⟩
  · intro _ hne
    simp [send_end_modality_marker, hne]
  · intro ho hne
    simp [send_end_modality_marker, ho, hne]
  · intro ho he
    simp [send_end_modality_marker, ho, he]

/-- C10, witness: one listed modality, one custom modality, one empty custom
input. -/
theorem claim_C10_witness :
    send_end_modality_marker "EEG" "" =
      { sent := some "END EEG", errorStatus := none, inputCleared := false } ∧
    send_end_modality_marker "Other" " eeg cap " =
      { sent := some "END EEG CAP", errorStatus := none,
        inputCleared := true } ∧
    send_end_modality_marker "Other" "   " =
      { sent := none, errorStatus := some "Error: Please enter a custom modality",
        inputCleared := false } :=
  ⟨((claim_C10_end_modality "EEG" "").1 (by decide) (by decide)).trans
      (by decide),
    ((claim_C10_end_modality "Other" " eeg cap ").2.1 rfl (by decide)).trans
      (by decide),
    ((claim_C10_end_modality "Other" "   ").2.2 rfl (by decide)).trans
      (by decide)⟩

end MobiMarker
